import Mathlib

/-!
Verification development for the World Bank ingest pipeline
(src/ingest/ingest_worldbank_to_bq.py).

The embedding is shallow: each relevant Python function becomes a Lean
definition over explicit data. Scalar JSON / dataframe cells are modelled
by the inductive type Cell (null, string, integer literal); pandas
to_numeric with coercion errors is modelled by a partial parse returning
Option; the two while-True pagination loops are modelled as fuel-indexed
recursions (a result of none means the fuel bound was exhausted, some r
means the loop terminated with r); Python exceptions become Except with
the error kind recorded in PyErr.
-/

namespace WorldBankIngest

/-- Scalar cell of a raw JSON record or dataframe column: null (JSON null,
pandas NaN or a missing key), a string, or a numeric literal. Numeric
values are modelled as integers; no claim depends on fractional values. -/
inductive Cell
  | null
  | str (s : String)
  | num (n : Int)
deriving DecidableEq, Repr

/-- Kinds of Python exception the embedded code can raise. -/
inductive PyErr
  | httpStatus (code : Nat)
  | transport (msg : String)
  | indexError
  | keyError
deriving DecidableEq, Repr

/-- Parse a run of decimal digits, most significant first. Fails on the
empty run and on any non-digit character. -/
def parseDigitsAux : List Char → Nat → Option Nat
  | [], acc => some acc
  | c :: cs, acc =>
    if c.isDigit then parseDigitsAux cs (acc * 10 + (c.toNat - 48))
    else none

/-- Parse a nonempty run of decimal digits. -/
def parseDigits : List Char → Option Nat
  | [] => none
  | cs => parseDigitsAux cs 0

/-- Parse an optionally-signed integer literal. -/
def parseIntLit (s : String) : Option Int :=
  match s.data with
  | '-' :: ds => (parseDigits ds).map fun n => -(n : Int)
  | ds => (parseDigits ds).map fun n => (n : Int)

/-- Model of pandas to_numeric with coercion of errors to null: null stays
null, a numeric cell is itself, a string parses only when it is an integer
literal, anything else coerces to none (null). (pd.to_numeric also parses
fractional literals; no claim depends on fractional values, so numeric
literals are modelled by integers throughout.) -/
def toNumeric : Cell → Option Int
  | Cell.null => none
  | Cell.num n => some n
  | Cell.str s => parseIntLit s

/-- Model of the year coercion pd.to_numeric followed by astype Int64:
same parse as toNumeric, landing in Int. -/
def toIntCell : Cell → Option Int := toNumeric

/-- Model of pandas astype(str) on a scalar cell. -/
def cellStr : Cell → String
  | Cell.null => "None"
  | Cell.str s => s
  | Cell.num n => toString n

/-! ## Transport layer: wb_get_json -/

/-- An HTTP response as seen by the code: a status code and a decoded body. -/
structure HttpResp (α : Type) where
  status_code : Nat
  body : α
deriving DecidableEq, Repr

/-- Result of one requests.get call: either a response object or a raised
transport-level exception. -/
inductive TransportResult (α : Type)
  | resp (r : HttpResp α)
  | exn (e : PyErr)
deriving DecidableEq, Repr

/-- The retryable status set of wb_get_json: r.status_code in
(429, 500, 502, 503, 504). -/
def retryableStatus (c : Nat) : Bool :=
  c == 429 || c == 500 || c == 502 || c == 503 || c == 504

/-- Final outcome of wb_get_json: the decoded body, or the aggregated
RuntimeError raised after the loop, carrying the last recorded error
(the Python variable last_err, which may still be None). -/
inductive WbOutcome (α : Type)
  | success (body : α)
  | aggregated (lastErr : Option PyErr)
deriving DecidableEq, Repr

/-- One iteration of the retry loop body of wb_get_json, given the result
of requests.get for this attempt and the current last_err. Returns ok on
status 200; otherwise returns the last_err value that the next iteration
(or the final raise) sees: a retryable status sleeps and continues without
touching last_err; any other status in 400..599 makes raise_for_status
raise an HTTPError, which the catch-all except clause records as last_err;
a remaining status falls off the try body with last_err unchanged; a
transport exception is recorded as last_err. -/
def wbAttemptStep (t : TransportResult α) (lastErr : Option PyErr) :
    Except (Option PyErr) α :=
  match t with
  | TransportResult.resp r =>
    if r.status_code == 200 then Except.ok r.body
    else if retryableStatus r.status_code then Except.error lastErr
    else if 400 ≤ r.status_code ∧ r.status_code < 600 then
      Except.error (some (PyErr.httpStatus r.status_code))
    else Except.error lastErr
  | TransportResult.exn e => Except.error (some e)

/-- Embedding of wb_get_json. The Python loop for attempt in range(1, 3)
runs the body for attempt = 1 and attempt = 2; it is unrolled here. The
first component counts how many requests.get calls were made; the second
is the outcome (returned body, or the RuntimeError aggregating last_err
raised after the loop). The transport argument maps the attempt number to
the result of that attempt. -/
def wb_get_json (transport : Nat → TransportResult α) : Nat × WbOutcome α :=
  match wbAttemptStep (transport 1) none with
  | Except.ok b => (1, WbOutcome.success b)
  | Except.error e1 =>
    match wbAttemptStep (transport 2) e1 with
    | Except.ok b => (2, WbOutcome.success b)
    | Except.error e2 => (2, WbOutcome.aggregated e2)

/-! ## Pagination: the two while-True loops -/

/-- Metadata dict (data[0]) of a paged response: the page and pages keys,
absent keys modelled by none. -/
structure MetaDict where
  page? : Option Int
  pages? : Option Int
deriving DecidableEq, Repr

/-- Decoded JSON body of one page: the list that the source API returns.
nil models a list of zero elements (or a non-list body), one a one-element
list holding only the metadata dict, two the usual [metadata, items]. -/
inductive WbResponse (α : Type)
  | nil
  | one (meta : MetaDict)
  | two (meta : MetaDict) (items : List α)
deriving DecidableEq, Repr

/-- Metadata extraction in fetch_indicators_long:
data[0] if isinstance(data, list) and len(data) > 0 else an empty dict. -/
def metaOf : WbResponse α → MetaDict
  | WbResponse.nil => ⟨none, none⟩
  | WbResponse.one m => m
  | WbResponse.two m _ => m

/-- Items extraction in fetch_indicators_long:
data[1] if isinstance(data, list) and len(data) > 1 else an empty list. -/
def itemsOf : WbResponse α → List α
  | WbResponse.two _ its => its
  | _ => []

/-- Embedding of the pagination loop of fetch_indicators_long. fetch maps
a page number to that page's decoded body; the loop starts with the given
page number and accumulated rows. Break on empty items returns the rows
accumulated so far; otherwise the items are appended and the loop breaks
when meta.get page (default 1) is at least meta.get pages (default 1),
else continues with page + 1. A fuel bound stands in for while True: none
means the bound was exhausted before the loop broke. -/
def fetchIndLoop (fetch : Nat → WbResponse α) :
    Nat → Nat → List α → Option (List α)
  | 0, _, _ => none
  | (fuel + 1), page, rows =>
    if (itemsOf (fetch page)).isEmpty then some rows
    else if (metaOf (fetch page)).pages?.getD 1 ≤ (metaOf (fetch page)).page?.getD 1 then
      some (rows ++ itemsOf (fetch page))
    else fetchIndLoop fetch fuel (page + 1) (rows ++ itemsOf (fetch page))

/-- Embedding of the pagination loop of fetch_countries_dim. The body is
unpacked as meta, items = data[0], data[1] (IndexError when the response
has fewer than two elements), items are appended unconditionally, and the
loop breaks only when int(meta[page]) is at least int(meta[pages])
(KeyError when either key is absent). There is no empty-items guard. -/
def fetchCtyLoop (fetch : Nat → WbResponse α) :
    Nat → Nat → List α → Option (Except PyErr (List α))
  | 0, _, _ => none
  | (fuel + 1), page, rows =>
    match fetch page with
    | WbResponse.nil => some (Except.error PyErr.indexError)
    | WbResponse.one _ => some (Except.error PyErr.indexError)
    | WbResponse.two meta items =>
      match meta.page?, meta.pages? with
      | some p, some q =>
        if q ≤ p then some (Except.ok (rows ++ items))
        else fetchCtyLoop fetch fuel (page + 1) (rows ++ items)
      | _, _ => some (Except.error PyErr.keyError)

/-- Page-number view of a finite list of page bodies: page p is the
element at index p - 1, and a page past the end is the empty body. -/
def pageFun (ps : List (WbResponse α)) (p : Nat) : WbResponse α :=
  ps.getD (p - 1) WbResponse.nil

/-- Concatenation, in order, of the items sections of a list of pages. -/
def flattenItems : List (WbResponse α) → List α
  | [] => []
  | r :: ps => itemsOf r ++ flattenItems ps

/-! ## Indicator normalizer -/

/-- One raw observation record after pd.json_normalize: the six source
fields that the code keeps (countryiso3code, country.value, date,
indicator.id, indicator.value, value), a missing or null JSON field being
Cell.null. -/
structure RawObs where
  countryiso3code : Cell
  country_value : Cell
  date : Cell
  indicator_id : Cell
  indicator_value : Cell
  value : Cell
deriving DecidableEq, Repr

/-- One normalized observation row: renamed columns, year coerced to an
integer, value coerced to numeric-or-null. Rows surviving normalization
have non-null country_iso3, year and indicator_code. -/
structure ObsRow where
  country_iso3 : Cell
  country_name : Cell
  year : Int
  indicator_code : Cell
  indicator_name : Cell
  value : Option Int
deriving DecidableEq, Repr

/-- Row-level effect of the normalization block of fetch_indicators_long:
rename the columns, coerce year (to_numeric then astype Int64) and value
(to_numeric with coercion to null), then dropna on
country_iso3, year, indicator_code. none means the row is dropped. -/
def normalizeObs (r : RawObs) : Option ObsRow :=
  match toIntCell r.date with
  | none => none
  | some y =>
    if r.countryiso3code = Cell.null ∨ r.indicator_id = Cell.null then none
    else some { country_iso3 := r.countryiso3code
              , country_name := r.country_value
              , year := y
              , indicator_code := r.indicator_id
              , indicator_name := r.indicator_value
              , value := toNumeric r.value }

/-- Table-level normalization: dropped rows vanish, kept rows keep their
relative order (pandas dropna preserves order). -/
def normalizeObsTable (rs : List RawObs) : List ObsRow :=
  rs.filterMap normalizeObs

/-- Embedding of fetch_indicators_long as a whole: run the pagination
loop from page 1 with empty rows, then normalize. When the accumulated
row list is empty, pd.json_normalize yields a dataframe with no columns
and the column selection df with the six fixed labels raises KeyError, so
the function raises instead of returning an empty table. -/
def fetch_indicators_long (fetch : Nat → WbResponse RawObs) (fuel : Nat) :
    Option (Except PyErr (List ObsRow)) :=
  (fetchIndLoop fetch fuel 1 []).map fun rows =>
    if rows.isEmpty then Except.error PyErr.keyError
    else Except.ok (normalizeObsTable rows)

/-! ## Country-dimension normalizer -/

/-- One raw country-metadata record after pd.json_normalize: the fields
the code reads (id, iso2Code, name, region.id, region.value,
incomeLevel.value, lendingType.value, capitalCity, latitude, longitude). -/
structure RawCountry where
  id : Cell
  iso2Code : Cell
  name : Cell
  region_id : Cell
  region_value : Cell
  incomeLevel_value : Cell
  lendingType_value : Cell
  capitalCity : Cell
  latitude : Cell
  longitude : Cell
deriving DecidableEq, Repr

/-- One normalized country-dimension row after column selection, rename
and latitude/longitude numeric coercion. -/
structure CountryRow where
  country_iso3 : Cell
  country_iso2 : Cell
  country_name : Cell
  region : Cell
  income_level : Cell
  lending_type : Cell
  capital_city : Cell
  capital_lat : Option Int
  capital_lon : Option Int
deriving DecidableEq, Repr

/-- Column selection, rename and lat/lon coercion of fetch_countries_dim
for one raw record. -/
def normalizeCountry (c : RawCountry) : CountryRow :=
  { country_iso3 := c.id
  , country_iso2 := c.iso2Code
  , country_name := c.name
  , region := c.region_value
  , income_level := c.incomeLevel_value
  , lending_type := c.lendingType_value
  , capital_city := c.capitalCity
  , capital_lat := toNumeric c.latitude
  , capital_lon := toNumeric c.longitude }

/-- Table-level effect of fetch_countries_dim after pagination: the
aggregate-exclusion filter df of region.id astype(str) different from
the sentinel NA, then per-row normalization. -/
def countriesDim (cs : List RawCountry) : List CountryRow :=
  (cs.filter fun c => cellStr c.region_id != "NA").map normalizeCountry

/-! ## Referential filter and provenance stamping (main) -/

/-- The valid_iso3 set built in main: the dimension column country_iso3
with nulls dropped and the rest astype(str). List membership models set
membership. -/
def validIso3 (dim : List CountryRow) : List String :=
  (dim.filter fun c => !(c.country_iso3 == Cell.null)).map fun c =>
    cellStr c.country_iso3

/-- The referential filter in main: keep exactly the observation rows
whose country_iso3 astype(str) is a member of valid_iso3. -/
def referentialFilter (obs : List ObsRow) (dim : List CountryRow) :
    List ObsRow :=
  obs.filter fun r => (validIso3 dim).contains (cellStr r.country_iso3)

/-- A row carrying the two provenance columns that main attaches. The
load timestamp is modelled as an integer epoch value. -/
structure Stamped (ρ : Type) where
  row : ρ
  run_id : String
  load_ts : Int
deriving DecidableEq, Repr

/-- Attaching run_id and load_ts as constant columns to a batch. -/
def stampRows (run_id : String) (load_ts : Int) (rows : List ρ) :
    List (Stamped ρ) :=
  rows.map fun r => ⟨r, run_id, load_ts⟩

/-- The pure core of main between fetching and loading: given the run_id
and load_ts generated once at the top of main and the raw fetched
records, build the two stamped batches. The observation batch is
referentially filtered against the country dimension of the same run
before stamping. -/
def mainTables (run_id : String) (load_ts : Int)
    (rawC : List RawCountry) (rawO : List RawObs) :
    List (Stamped CountryRow) × List (Stamped ObsRow) :=
  (stampRows run_id load_ts (countriesDim rawC),
   stampRows run_id load_ts
     (referentialFilter (normalizeObsTable rawO) (countriesDim rawC)))

/-! ## Warehouse loading order (end of main) -/

/-- The two destination tables as durable state. -/
structure Warehouse where
  country_dim : List (Stamped CountryRow)
  indicators_long : List (Stamped ObsRow)
deriving DecidableEq, Repr

/-- Events recorded when main reaches an append call. -/
inductive LoadEvent
  | appendCountries
  | appendIndicators
deriving DecidableEq, Repr

/-- The load phase of main: bq_append_df for the countries batch, then
bq_append_df for the indicators batch. Each append blocks on job.result,
which raises on failure (modelled by the two failure flags); a failed
append commits nothing and aborts the run, so the second append is not
attempted when the first fails. The event list records the appends in the
order they are attempted. -/
def runLoads (w : Warehouse) (cty : List (Stamped CountryRow))
    (ind : List (Stamped ObsRow)) (ctyFails indFails : Bool) :
    List LoadEvent × Warehouse × Except PyErr Unit :=
  if ctyFails then
    ([LoadEvent.appendCountries], w, Except.error (PyErr.transport "load failed"))
  else if indFails then
    ([LoadEvent.appendCountries, LoadEvent.appendIndicators],
     { w with country_dim := w.country_dim ++ cty },
     Except.error (PyErr.transport "load failed"))
  else
    ([LoadEvent.appendCountries, LoadEvent.appendIndicators],
     { country_dim := w.country_dim ++ cty
     , indicators_long := w.indicators_long ++ ind },
     Except.ok ())

/-! ## Transport-layer lemmas -/

theorem retryableStatus_spec (c : Nat) :
    retryableStatus c = true ↔ c = 429 ∨ c = 500 ∨ c = 502 ∨ c = 503 ∨ c = 504 := by
  simp [retryableStatus, Bool.or_eq_true, beq_iff_eq]
  tauto

theorem wbAttemptStep_retryable (r : HttpResp α) (le : Option PyErr)
    (hr : retryableStatus r.status_code = true) :
    wbAttemptStep (TransportResult.resp r) le = Except.error le := by
  have h200 : (r.status_code == 200) = false := by
    rcases (retryableStatus_spec r.status_code).mp hr with h | h | h | h | h <;>
      simp [h]
  simp [wbAttemptStep, h200, hr]

theorem wbAttemptStep_httpError (r : HttpResp α) (le : Option PyErr)
    (h4 : 400 ≤ r.status_code) (h6 : r.status_code < 600)
    (hr : retryableStatus r.status_code = false) :
    wbAttemptStep (TransportResult.resp r) le =
      Except.error (some (PyErr.httpStatus r.status_code)) := by
  have h200 : (r.status_code == 200) = false := by
    have : r.status_code ≠ 200 := by omega
    simpa using this
  simp [wbAttemptStep, h200, hr, h4, h6]

/-- A transport whose every attempt yields an HTTP 404 response. -/
def t404 : Nat → TransportResult Unit := fun _ =>
  TransportResult.resp ⟨404, ()⟩

/-- A transport whose every attempt yields an HTTP 429 response. -/
def t429 : Nat → TransportResult Unit := fun _ =>
  TransportResult.resp ⟨429, ()⟩

/-- C1 counterexample. The claim says a non-retryable non-success status
(here 404 on every attempt) leads to exactly 1 attempt with the failure
raised immediately. In the code, raise_for_status raises inside the try
block and the catch-all except clause catches the HTTPError, records it
as last_err and retries: 2 attempts are made, not 1, and the failure
finally raised is the aggregated RuntimeError, not the HTTPError itself. -/
theorem wb_get_json_404_two_attempts :
    wb_get_json t404 = (2, WbOutcome.aggregated (some (PyErr.httpStatus 404)))
      ∧ (wb_get_json t404).1 ≠ 1 := by
  constructor
  · rfl
  · decide

/-- C1 amended. When every attempt returns a non-retryable error status
(one for which raise_for_status raises, i.e. a non-2xx status in
400..599 outside the retryable set), wb_get_json makes 2 attempts and
then raises the aggregated failure carrying the HTTPError of the second
attempt. -/
theorem wb_get_json_nonretryable_retried (transport : Nat → TransportResult α)
    (r1 r2 : HttpResp α)
    (h1 : transport 1 = TransportResult.resp r1)
    (h2 : transport 2 = TransportResult.resp r2)
    (h14 : 400 ≤ r1.status_code) (h16 : r1.status_code < 600)
    (h1r : retryableStatus r1.status_code = false)
    (h24 : 400 ≤ r2.status_code) (h26 : r2.status_code < 600)
    (h2r : retryableStatus r2.status_code = false) :
    wb_get_json transport =
      (2, WbOutcome.aggregated (some (PyErr.httpStatus r2.status_code))) := by
  unfold wb_get_json
  rw [h1, h2]
  simp [wbAttemptStep_httpError r1 none h14 h16 h1r,
    wbAttemptStep_httpError r2 (some (PyErr.httpStatus r1.status_code)) h24 h26 h2r]

/-- C1 amended, witness: the always-404 transport satisfies the
hypotheses and yields 2 attempts plus the aggregated HTTPError 404. -/
theorem wb_get_json_nonretryable_retried_witness :
    (400 ≤ 404 ∧ 404 < 600 ∧ retryableStatus 404 = false) ∧
      wb_get_json t404 =
        (2, WbOutcome.aggregated (some (PyErr.httpStatus 404))) :=
  ⟨⟨by decide, by decide, by decide⟩,
   wb_get_json_nonretryable_retried t404 ⟨404, ()⟩ ⟨404, ()⟩ rfl rfl
     (by decide) (by decide) (by decide) (by decide) (by decide) (by decide)⟩

/-- C2 counterexample. For a transport that returns the retryable status
429 on every attempt, the aggregated failure carries last_err = none: a
retryable status sleeps and continues without recording any error, so the
RuntimeError raised after the loop does not carry the last underlying
error (the 429) — its payload is None. -/
theorem wb_get_json_429_carries_none :
    wb_get_json t429 = (2, WbOutcome.aggregated none)
      ∧ (wb_get_json t429).2 ≠ WbOutcome.aggregated (some (PyErr.httpStatus 429)) := by
  constructor
  · rfl
  · decide

/-- C2 amended. For every transport that returns a response with a
retryable status (429, 500, 502, 503 or 504) on both attempts,
wb_get_json makes exactly 2 attempts and raises one single aggregated
failure; the failure carries last_err = none, because only caught
exceptions are recorded as the last error and a retryable status is
skipped over without recording anything. -/
theorem wb_get_json_retryable_exhausts (transport : Nat → TransportResult α)
    (r1 r2 : HttpResp α)
    (h1 : transport 1 = TransportResult.resp r1)
    (h2 : transport 2 = TransportResult.resp r2)
    (h1r : retryableStatus r1.status_code = true)
    (h2r : retryableStatus r2.status_code = true) :
    wb_get_json transport = (2, WbOutcome.aggregated none) := by
  unfold wb_get_json
  rw [h1, h2]
  simp [wbAttemptStep_retryable r1 none h1r,
    wbAttemptStep_retryable r2 none h2r]

/-- C2 amended, witness: the always-429 transport satisfies the
hypotheses and yields 2 attempts plus the aggregated failure with
payload none. -/
theorem wb_get_json_retryable_exhausts_witness :
    retryableStatus 429 = true ∧
      wb_get_json t429 = (2, WbOutcome.aggregated none) :=
  ⟨by decide,
   wb_get_json_retryable_exhausts t429 ⟨429, ()⟩ ⟨429, ()⟩ rfl rfl
     (by decide) (by decide)⟩

/-! ## Pagination lemmas -/

/-- A constant page function returning a one-element response body
(metadata only, no items section). -/
def shortPage : Nat → WbResponse Int := fun _ =>
  WbResponse.one ⟨some 1, some 1⟩

/-- A constant page function returning a well-formed page with an empty
items list whose metadata still reports more pages ahead. -/
def emptyItemsPage : Nat → WbResponse Int := fun _ =>
  WbResponse.two ⟨some 1, some 2⟩ []

/-- C3 counterexample. The claim extends the empty-items and
fewer-than-two-elements guards to the country-metadata loop, but that
loop has neither: a response with fewer than two elements makes the
unpacking data[0], data[1] raise an IndexError instead of terminating
cleanly, and a page with an empty items list whose metadata reports
page 1 of 2 does not terminate the loop at all (here the loop is still
running after 5 iterations, the fuel bound). -/
theorem fetchCtyLoop_no_guard :
    fetchCtyLoop shortPage 1 1 ([] : List Int)
        = some (Except.error PyErr.indexError)
      ∧ fetchCtyLoop emptyItemsPage 5 1 ([] : List Int) = none := by
  constructor
  · rfl
  · rfl

/-- C3 amended. The guard exists only in the indicator-observation loop:
there, any response whose items section is empty — in particular every
response with fewer than two elements, whose items section defaults to
the empty list — terminates the pagination immediately and without
error, returning the rows accumulated so far. The country-metadata loop
has no such guard (see the counterexample). -/
theorem fetchIndLoop_empty_items_terminates (fetch : Nat → WbResponse α)
    (fuel page : Nat) (acc : List α)
    (h : (itemsOf (fetch page)).isEmpty = true) :
    fetchIndLoop fetch (fuel + 1) page acc = some acc := by
  simp [fetchIndLoop, h]

/-- C3 amended, witness: a metadata-only (one-element) response on page 1
terminates the indicator loop at once with the accumulator unchanged. -/
theorem fetchIndLoop_empty_items_terminates_witness :
    (itemsOf (shortPage 1)).isEmpty = true
      ∧ fetchIndLoop shortPage 4 1 ([] : List Int) = some [] :=
  ⟨by decide, fetchIndLoop_empty_items_terminates shortPage 3 1 [] (by decide)⟩

/-- The final page of a well-formed sequence: a two-element response whose
metadata has both keys and reports page at least pages. -/
def lastPageStops : WbResponse α → Bool
  | WbResponse.two m _ =>
    match m.page?, m.pages? with
    | some p, some q => decide (q ≤ p)
    | _, _ => false
  | _ => false

/-- A non-final page of a well-formed sequence: a two-element response
with a nonempty items section whose metadata has both keys and reports
page strictly below pages. -/
def midPageGood : WbResponse α → Bool
  | WbResponse.two m its =>
    !its.isEmpty &&
      (match m.page?, m.pages? with
       | some p, some q => decide (p < q)
       | _, _ => false)
  | _ => false

/-- A well-formed finite page sequence: every non-final page is a good
middle page and the final page reports page at least pages. -/
def goodPages : List (WbResponse α) → Bool
  | [] => false
  | [r] => lastPageStops r
  | r :: s :: rest => midPageGood r && goodPages (s :: rest)

theorem lastPageStops_iff (m : MetaDict) (its : List α) :
    lastPageStops (WbResponse.two m its) = true ↔
      ∃ p q, m.page? = some p ∧ m.pages? = some q ∧ q ≤ p := by
  cases hp : m.page? <;> cases hq : m.pages? <;>
    simp [lastPageStops, hp, hq]

theorem midPageGood_iff (m : MetaDict) (its : List α) :
    midPageGood (WbResponse.two m its) = true ↔
      its ≠ [] ∧ ∃ p q, m.page? = some p ∧ m.pages? = some q ∧ p < q := by
  cases hp : m.page? <;> cases hq : m.pages? <;>
    simp [midPageGood, hp, hq, List.isEmpty_iff]

/-- Running the indicator pagination loop over a well-formed suffix of
pages: with fuel equal to the number of remaining pages, it terminates
and appends the concatenation of the items of all remaining pages. -/
theorem fetchIndLoop_run (suffix : List (WbResponse α)) :
    ∀ (fetch : Nat → WbResponse α) (start : Nat) (acc : List α),
      (∀ i, i < suffix.length → fetch (start + i) = suffix.getD i WbResponse.nil) →
      goodPages suffix = true →
      fetchIndLoop fetch suffix.length start acc
        = some (acc ++ flattenItems suffix) := by
  induction suffix with
  | nil =>
    intro fetch start acc _ hg
    simp [goodPages] at hg
  | cons r rest ih =>
    intro fetch start acc hf hg
    have hr : fetch start = r := by simpa using hf 0 (by simp)
    cases rest with
    | nil =>
      cases r with
      | nil => simp [goodPages, lastPageStops] at hg
      | one m => simp [goodPages, lastPageStops] at hg
      | two m its =>
        have hg2 : lastPageStops (WbResponse.two m its) = true := by
          simpa [goodPages] using hg
        obtain ⟨p, q, hp, hq, hpq⟩ := (lastPageStops_iff m its).mp hg2
        by_cases hits : its.isEmpty
        · have : its = [] := by simpa [List.isEmpty_iff] using hits
          subst this
          simp [fetchIndLoop, hr, itemsOf, flattenItems]
        · simp [fetchIndLoop, hr, itemsOf, metaOf, hp, hq, hits, hpq,
            flattenItems]
    | cons s rest2 =>
      have hg2 : midPageGood r = true ∧ goodPages (s :: rest2) = true := by
        simpa [goodPages, Bool.and_eq_true] using hg
      cases r with
      | nil => simp [midPageGood] at hg2
      | one m => simp [midPageGood] at hg2
      | two m its =>
        obtain ⟨hne, p, q, hp, hq, hpq⟩ := (midPageGood_iff m its).mp hg2.1
        have hits : its.isEmpty = false := by
          simpa [List.isEmpty_iff] using hne
        have hstep :
            fetchIndLoop fetch ((s :: rest2).length + 1) start acc
              = fetchIndLoop fetch (s :: rest2).length (start + 1) (acc ++ its) := by
          simp [fetchIndLoop, hr, itemsOf, metaOf, hp, hq, hits]
          intro hle
          omega
        have hnext : ∀ i, i < (s :: rest2).length →
            fetch (start + 1 + i) = (s :: rest2).getD i WbResponse.nil := by
          intro i hi
          have h1 := hf (i + 1) (by simpa using Nat.succ_lt_succ hi)
          have e : start + 1 + i = start + (i + 1) := by omega
          rw [e, h1]
          simp [List.getD]
        have := ih fetch (start + 1) (acc ++ its) hnext hg2.2
        calc fetchIndLoop fetch (WbResponse.two m its :: s :: rest2).length start acc
            = fetchIndLoop fetch (s :: rest2).length (start + 1) (acc ++ its) := by
              simpa [List.length_cons] using hstep
          _ = some ((acc ++ its) ++ flattenItems (s :: rest2)) := this
          _ = some (acc ++ flattenItems (WbResponse.two m its :: s :: rest2)) := by
              simp [flattenItems, itemsOf, List.append_assoc]

/-- Running the country pagination loop over a well-formed suffix of
pages: with fuel equal to the number of remaining pages, it terminates
without error and appends the concatenation of the items of all
remaining pages. -/
theorem fetchCtyLoop_run (suffix : List (WbResponse α)) :
    ∀ (fetch : Nat → WbResponse α) (start : Nat) (acc : List α),
      (∀ i, i < suffix.length → fetch (start + i) = suffix.getD i WbResponse.nil) →
      goodPages suffix = true →
      fetchCtyLoop fetch suffix.length start acc
        = some (Except.ok (acc ++ flattenItems suffix)) := by
  induction suffix with
  | nil =>
    intro fetch start acc _ hg
    simp [goodPages] at hg
  | cons r rest ih =>
    intro fetch start acc hf hg
    have hr : fetch start = r := by simpa using hf 0 (by simp)
    cases rest with
    | nil =>
      cases r with
      | nil => simp [goodPages, lastPageStops] at hg
      | one m => simp [goodPages, lastPageStops] at hg
      | two m its =>
        have hg2 : lastPageStops (WbResponse.two m its) = true := by
          simpa [goodPages] using hg
        obtain ⟨p, q, hp, hq, hpq⟩ := (lastPageStops_iff m its).mp hg2
        simp [fetchCtyLoop, hr, hp, hq, hpq, flattenItems, itemsOf]
    | cons s rest2 =>
      have hg2 : midPageGood r = true ∧ goodPages (s :: rest2) = true := by
        simpa [goodPages, Bool.and_eq_true] using hg
      cases r with
      | nil => simp [midPageGood] at hg2
      | one m => simp [midPageGood] at hg2
      | two m its =>
        obtain ⟨hne, p, q, hp, hq, hpq⟩ := (midPageGood_iff m its).mp hg2.1
        have hstep :
            fetchCtyLoop fetch ((s :: rest2).length + 1) start acc
              = fetchCtyLoop fetch (s :: rest2).length (start + 1) (acc ++ its) := by
          simp [fetchCtyLoop, hr, hp, hq]
          intro hle
          omega
        have hnext : ∀ i, i < (s :: rest2).length →
            fetch (start + 1 + i) = (s :: rest2).getD i WbResponse.nil := by
          intro i hi
          have h1 := hf (i + 1) (by simpa using Nat.succ_lt_succ hi)
          have e : start + 1 + i = start + (i + 1) := by omega
          rw [e, h1]
          simp [List.getD]
        have := ih fetch (start + 1) (acc ++ its) hnext hg2.2
        calc fetchCtyLoop fetch (WbResponse.two m its :: s :: rest2).length start acc
            = fetchCtyLoop fetch (s :: rest2).length (start + 1) (acc ++ its) := by
              simpa [List.length_cons] using hstep
          _ = some (Except.ok ((acc ++ its) ++ flattenItems (s :: rest2))) := this
          _ = some (Except.ok (acc ++ flattenItems (WbResponse.two m its :: s :: rest2))) := by
              simp [flattenItems, itemsOf, List.append_assoc]

/-- A two-page sequence in which every page carries page and pages
metadata and the final page reports page at least pages, but the first
page already reports page 1 of 1. -/
def earlyStopPages : List (WbResponse Int) :=
  [WbResponse.two ⟨some 1, some 1⟩ [10],
   WbResponse.two ⟨some 2, some 2⟩ [20]]

/-- C4 counterexample. In this sequence every page carries page and pages
metadata and the final page reports page at least pages (2 of 2), so the
claim's hypotheses hold, and it promises the concatenation [10, 20] of
all items. Both drivers instead stop at the first page — whose metadata
already reports page 1 of 1 — and return only [10]. -/
theorem pagination_early_stop :
    fetchIndLoop (pageFun earlyStopPages) earlyStopPages.length 1 [] = some [10]
      ∧ fetchCtyLoop (pageFun earlyStopPages) earlyStopPages.length 1 []
          = some (Except.ok [10])
      ∧ flattenItems earlyStopPages = [10, 20]
      ∧ some [10] ≠ some (flattenItems earlyStopPages) := by
  refine ⟨rfl, rfl, rfl, ?_⟩
  decide

/-- C4 amended. For every finite page sequence in which each page is a
two-element response carrying page and pages metadata, every non-final
page reports page strictly below pages and has a nonempty items list,
and the final page reports page at least pages, both pagination drivers
— started at page 1 with fuel equal to the number of pages — terminate
and return the concatenation of all pages' items, preserving item order
within and across pages. (The extra conditions on non-final pages are
forced by the counterexample: a non-final page reporting page at least
pages, or one with an empty items list, stops the indicator driver
early.) -/
theorem pagination_drivers_return_all (ps : List (WbResponse α))
    (hg : goodPages ps = true) :
    fetchIndLoop (pageFun ps) ps.length 1 [] = some (flattenItems ps)
      ∧ fetchCtyLoop (pageFun ps) ps.length 1 []
          = some (Except.ok (flattenItems ps)) := by
  have hfetch : ∀ i, i < ps.length →
      pageFun ps (1 + i) = ps.getD i WbResponse.nil := by
    intro i _
    simp [pageFun]
  constructor
  · simpa using fetchIndLoop_run ps (pageFun ps) 1 [] hfetch hg
  · simpa using fetchCtyLoop_run ps (pageFun ps) 1 [] hfetch hg

/-- A well-formed three-page sequence. -/
def threePages : List (WbResponse Int) :=
  [WbResponse.two ⟨some 1, some 3⟩ [1, 2],
   WbResponse.two ⟨some 2, some 3⟩ [3],
   WbResponse.two ⟨some 3, some 3⟩ [4, 5]]

/-- C4 amended, witness: on a concrete well-formed three-page sequence
both drivers return the in-order concatenation of all items. -/
theorem pagination_drivers_return_all_witness :
    goodPages threePages = true
      ∧ fetchIndLoop (pageFun threePages) threePages.length 1 []
          = some (flattenItems threePages)
      ∧ fetchCtyLoop (pageFun threePages) threePages.length 1 []
          = some (Except.ok (flattenItems threePages)) :=
  ⟨by decide,
   (pagination_drivers_return_all threePages (by decide)).1,
   (pagination_drivers_return_all threePages (by decide)).2⟩

/-- C9. If the observations endpoint returns a response with an empty
items section on page 1, the pagination loop stops at once with zero
accumulated rows, and fetch_indicators_long then raises a KeyError while
selecting the six fixed output columns from the column-less dataframe
that pd.json_normalize builds from an empty row list — the run aborts
instead of yielding an empty table. -/
theorem fetch_indicators_long_empty_aborts (fetch : Nat → WbResponse RawObs)
    (fuel : Nat) (h : (itemsOf (fetch 1)).isEmpty = true) :
    fetch_indicators_long fetch (fuel + 1) = some (Except.error PyErr.keyError) := by
  unfold fetch_indicators_long
  rw [fetchIndLoop_empty_items_terminates fetch fuel 1 [] h]
  rfl

/-- A fetch function for the observations endpoint whose first page has
no items section. -/
def emptyObsEndpoint : Nat → WbResponse RawObs := fun _ => WbResponse.nil

/-- C9 witness: a concrete endpoint with an empty first page makes
fetch_indicators_long raise the KeyError. -/
theorem fetch_indicators_long_empty_aborts_witness :
    (itemsOf (emptyObsEndpoint 1)).isEmpty = true
      ∧ fetch_indicators_long emptyObsEndpoint 3
          = some (Except.error PyErr.keyError) :=
  ⟨by decide, fetch_indicators_long_empty_aborts emptyObsEndpoint 2 (by decide)⟩

/-! ## Normalizer, filter and provenance theorems -/

/-- C5. The indicator normalizer drops a raw observation row exactly when
country_iso3 is missing, year is missing or non-numeric, or
indicator_code is missing; a kept row carries the renamed fields
unchanged, the coerced integer year, and value coerced to numeric with
non-numeric values degrading to null — so a malformed value never drops
the row and never touches the other fields. -/
theorem normalizeObs_contract (r : RawObs) :
    (normalizeObs r = none ↔
        r.countryiso3code = Cell.null ∨ toIntCell r.date = none
          ∨ r.indicator_id = Cell.null)
      ∧ (∀ row : ObsRow, normalizeObs r = some row →
          row.country_iso3 = r.countryiso3code
            ∧ row.country_name = r.country_value
            ∧ toIntCell r.date = some row.year
            ∧ row.indicator_code = r.indicator_id
            ∧ row.indicator_name = r.indicator_value
            ∧ row.value = toNumeric r.value) := by
  constructor
  · cases hd : toIntCell r.date with
    | none => simp [normalizeObs, hd]
    | some y =>
      by_cases hn : r.countryiso3code = Cell.null ∨ r.indicator_id = Cell.null
      · simp [normalizeObs, hd, hn]
      · push_neg at hn
        simp [normalizeObs, hd, hn.1, hn.2]
  · intro row hrow
    cases hd : toIntCell r.date with
    | none => simp [normalizeObs, hd] at hrow
    | some y =>
      by_cases hn : r.countryiso3code = Cell.null ∨ r.indicator_id = Cell.null
      · simp [normalizeObs, hd, hn] at hrow
      · simp [normalizeObs, hd, hn] at hrow
        subst hrow
        simp [hd]

/-- A raw observation with a sound key but the literal string NaN as its
value. -/
def wObsNaN : RawObs :=
  ⟨Cell.str "USA", Cell.str "United States", Cell.num 2020,
   Cell.str "NY.GDP.MKTP.KD.ZG", Cell.null, Cell.str "NaN"⟩

/-- The normalized row that wObsNaN becomes: retained, value null. -/
def wRowNaN : ObsRow :=
  ⟨Cell.str "USA", Cell.str "United States", 2020,
   Cell.str "NY.GDP.MKTP.KD.ZG", Cell.null, none⟩

/-- C5 witness: the NaN-valued record is retained with value null and
all other fields carried over, and a record missing country_iso3 is
dropped. -/
theorem normalizeObs_contract_witness :
    normalizeObs wObsNaN = some wRowNaN
      ∧ wRowNaN.value = toNumeric (Cell.str "NaN")
      ∧ normalizeObs ⟨Cell.null, Cell.null, Cell.num 2020,
          Cell.str "NY.GDP.MKTP.KD.ZG", Cell.null, Cell.num 3⟩ = none :=
  ⟨by decide,
   ((normalizeObs_contract wObsNaN).2 wRowNaN (by decide)).2.2.2.2.2,
   (normalizeObs_contract _).1.mpr (Or.inl rfl)⟩

/-- C6. The referential filter keeps exactly the observation rows whose
country_iso3 (as a string) is a member of the set of country_iso3 values
of the dimension table — plain set membership — and the kept rows are a
sublist of the input, so every other row is removed. -/
theorem referentialFilter_mem (obs : List ObsRow) (dim : List CountryRow)
    (r : ObsRow) :
    (r ∈ referentialFilter obs dim ↔
        r ∈ obs ∧ cellStr r.country_iso3 ∈ validIso3 dim)
      ∧ (referentialFilter obs dim).Sublist obs := by
  constructor
  · simp [referentialFilter, List.mem_filter, List.elem_iff]
  · exact List.filter_sublist _

/-- C7. A row is present in the normalized country-dimension table
exactly when it is the normalization of a raw item of the batch whose
region classification identifier (as a string) differs from the sentinel
NA; items whose region identifier equals NA are excluded. -/
theorem countriesDim_mem (cs : List RawCountry) (row : CountryRow) :
    row ∈ countriesDim cs ↔
      ∃ c, c ∈ cs ∧ cellStr c.region_id ≠ "NA" ∧ normalizeCountry c = row := by
  simp only [countriesDim, List.mem_map, List.mem_filter, bne_iff_ne,
    ne_eq]
  constructor
  · rintro ⟨c, ⟨hc, hna⟩, heq⟩
    exact ⟨c, hc, hna, heq⟩
  · rintro ⟨c, hc, hna, heq⟩
    exact ⟨c, ⟨hc, hna⟩, heq⟩

/-- C8. Every row of both batches built by one run of main carries the
run_id and load_ts generated once at the top of that run; they are
attached as constant columns to whole tables, not computed per row. -/
theorem mainTables_provenance (rid : String) (ts : Int)
    (rawC : List RawCountry) (rawO : List RawObs)
    (s : Stamped CountryRow) (t : Stamped ObsRow) :
    (s ∈ (mainTables rid ts rawC rawO).1 → s.run_id = rid ∧ s.load_ts = ts)
      ∧ (t ∈ (mainTables rid ts rawC rawO).2 → t.run_id = rid ∧ t.load_ts = ts) := by
  constructor
  · intro h
    simp only [mainTables, stampRows, List.mem_map] at h
    obtain ⟨x, _, rfl⟩ := h
    exact ⟨rfl, rfl⟩
  · intro h
    simp only [mainTables, stampRows, List.mem_map] at h
    obtain ⟨x, _, rfl⟩ := h
    exact ⟨rfl, rfl⟩

/-- A raw country record for a real country. -/
def wCountry : RawCountry :=
  ⟨Cell.str "USA", Cell.str "US", Cell.str "United States",
   Cell.str "NAC", Cell.str "North America", Cell.str "High income",
   Cell.str "IBRD", Cell.str "Washington D.C.", Cell.num 38, Cell.num 77⟩

/-- The country batch row of the witness run. -/
def wStampC : Stamped CountryRow := ⟨normalizeCountry wCountry, "run-1", 5⟩

/-- The observation batch row of the witness run. -/
def wStampT : Stamped ObsRow := ⟨wRowNaN, "run-1", 5⟩

/-- C8 witness: in a concrete simulated run both batches are nonempty and
their rows carry the identical run_id and load_ts. -/
theorem mainTables_provenance_witness :
    (wStampC ∈ (mainTables "run-1" 5 [wCountry] [wObsNaN]).1
        ∧ wStampC.run_id = "run-1" ∧ wStampC.load_ts = 5)
      ∧ (wStampT ∈ (mainTables "run-1" 5 [wCountry] [wObsNaN]).2
        ∧ wStampT.run_id = "run-1" ∧ wStampT.load_ts = 5) := by
  have h := mainTables_provenance "run-1" 5 [wCountry] [wObsNaN] wStampC wStampT
  have hm1 : wStampC ∈ (mainTables "run-1" 5 [wCountry] [wObsNaN]).1 := by decide
  have hm2 : wStampT ∈ (mainTables "run-1" 5 [wCountry] [wObsNaN]).2 := by decide
  exact ⟨⟨hm1, h.1 hm1⟩, ⟨hm2, h.2 hm2⟩⟩

/-- C10. The load phase always attempts the country-dimension append
first; when it succeeds and the observation append then fails, the run
aborts with the country rows of the run already committed in the
destination table and the observation table untouched. -/
theorem runLoads_order_and_commit (w : Warehouse)
    (cty : List (Stamped CountryRow)) (ind : List (Stamped ObsRow))
    (cf indf : Bool) :
    (runLoads w cty ind cf indf).1.head? = some LoadEvent.appendCountries
      ∧ runLoads w cty ind false true
          = ([LoadEvent.appendCountries, LoadEvent.appendIndicators],
             { country_dim := w.country_dim ++ cty
             , indicators_long := w.indicators_long },
             Except.error (PyErr.transport "load failed")) := by
  constructor
  · cases cf <;> cases indf <;> simp [runLoads]
  · simp [runLoads]

end WorldBankIngest
